import Mathlib

/-!
Shallow embedding of `src/docker/pdffigures2/server.py` (a Flask HTTP shim
around the pdffigures2 CLI) and proofs of the specification claims about it.

The embedding models:
  - JSON values (`Json`) and Python dict lookup with default (`dget`,
    mirroring `dict.get(key, default)`);
  - the relevant `os.path` string operations (`os_path_join`,
    `os_basename`, `os_splitext_root`) following the posixpath source;
  - `transform_figures` (the pure normalizer), with `Option` for the
    Python code paths that would raise (a present `regionBoundary`
    value that is not a dict, or a list element that is not a dict);
  - `get_classpath` over a directory-tree model of `os.walk`;
  - the three request handlers (`health`, `extract_figures`,
    `extract_figures_from_path`) as pure functions of an environment
    recording the outcome of every external effect (multipart fields,
    request body, subprocess result, filesystem existence oracle,
    file-read/JSON-parse result, and whether `shutil.rmtree` raises).
    Each handler returns an `Outcome`: the HTTP response plus flags for
    whether the per-request working directory was created, whether
    cleanup (`shutil.rmtree`) was invoked, and whether it succeeded.
-/

/-- JSON values, with integers standing in for JSON numbers (the server
never computes on numeric values, it only moves them around). -/
inductive Json where
  | null
  | bool (b : Bool)
  | num (n : Int)
  | str (s : String)
  | arr (elems : List Json)
  | obj (fields : List (String × Json))

/-- Python `fig.get(key, default)` on a dict modelled as an association
list: the value of the first matching key, or the default when the key
is absent. -/
def dget (d : List (String × Json)) (k : String) (default : Json) : Json :=
  match d.find? (fun p => p.1 == k) with
  | some p => p.2
  | none => default

/-- Field lookup on a JSON object; `none` when the value is not an
object or the key is absent. -/
def jget (j : Json) (k : String) : Option Json :=
  match j with
  | .obj fields =>
    match fields.find? (fun p => p.1 == k) with
    | some p => some p.2
    | none => none
  | _ => none

/-- Index of the last occurrence of `c` in `l`, as in Python `str.rfind`
(but `Option` instead of -1). -/
def rfindChar (l : List Char) (c : Char) : Option Nat :=
  match l.reverse.indexOf? c with
  | none => none
  | some i => some (l.length - 1 - i)

/-- Python `os.path.basename` for POSIX paths: everything after the last
slash. -/
def os_basename (s : String) : String :=
  match rfindChar s.data '/' with
  | none => s
  | some i => ⟨s.data.drop (i + 1)⟩

/-- The root part (first component) of Python `os.path.splitext` for
POSIX paths, following the posixpath implementation: split at the last
dot only if it comes after the last slash and the filename does not
consist solely of leading dots up to it. -/
def os_splitext_root (s : String) : String :=
  match rfindChar s.data '.' with
  | none => s
  | some di =>
    let cut (fi : Nat) : String :=
      if ((s.data.drop fi).take (di - fi)).any (fun c => c ≠ '.') then
        ⟨s.data.take di⟩
      else s
    match rfindChar s.data '/' with
    | none => cut 0
    | some si => if si < di then cut (si + 1) else s

/-- Whether a path begins with a slash (Python `b.startswith(sep)`). -/
def startsWithSlash (s : String) : Bool :=
  match s.data with
  | c :: _ => c == '/'
  | [] => false

/-- Whether a path ends with a slash (Python `path.endswith(sep)`). -/
def endsWithSlash (s : String) : Bool :=
  match s.data.getLast? with
  | some c => c == '/'
  | none => false

/-- Python `os.path.join(a, b)` for POSIX paths with two arguments,
following the posixpath implementation. -/
def os_path_join (a b : String) : String :=
  if startsWithSlash b then b
  else if a.data.isEmpty || endsWithSlash a then a ++ b
  else a ++ "/" ++ b

/-- The loop body of `transform_figures` for one raw figure record
(a dict): default-fill name, figType, page, caption and the four
regionBoundary coordinates, and pass imageBoundary through verbatim
(defaulting to null when absent). `none` models the AttributeError the
Python code raises when a present `regionBoundary` value is not a dict. -/
def transformFig (fig : List (String × Json)) : Option Json :=
  let fig_type := dget fig "figType" (.str "Figure")
  match dget fig "regionBoundary" (.obj []) with
  | .obj region =>
    some (.obj [
      ("name", dget fig "name" (.str "")),
      ("figType", fig_type),
      ("page", dget fig "page" (.num 0)),
      ("caption", dget fig "caption" (.str "")),
      ("regionBoundary", .obj [
        ("x1", dget region "x1" (.num 0)),
        ("y1", dget region "y1" (.num 0)),
        ("x2", dget region "x2" (.num 0)),
        ("y2", dget region "y2" (.num 0))]),
      ("imageBoundary", dget fig "imageBoundary" .null)])
  | _ => none

/-- Function `transform_figures` from server.py: normalize each raw record in
order. `none` models the exception raised when an element is not a dict
or its `regionBoundary` value is present but not a dict. -/
def transform_figures : List Json → Option (List Json)
  | [] => some []
  | j :: rest =>
    match j with
    | .obj fig =>
      match transformFig fig, transform_figures rest with
      | some out, some outs => some (out :: outs)
      | _, _ => none
    | _ => none

/-- Process-wide configuration read from the environment at startup:
PDFFIGURES2_JAR, LIB_DIR and DATA_DIR. -/
structure Config where
  jarPath : String
  libDir : String
  dataDir : String

mutual
/-- A directory on disk, for modelling `os.walk`: its files (names, in
the order the OS lists them) and its subdirectories. -/
inductive DirTree where
  | mk (files : List String) (subdirs : DirForest)
/-- An ordered list of named subdirectories. -/
inductive DirForest where
  | nil
  | cons (name : String) (tree : DirTree) (rest : DirForest)
end

mutual
/-- The jar files collected by the `os.walk` loop in `get_classpath`,
rooted at `root`: top-down traversal, files of each directory first (in
listing order), then each subdirectory in order. -/
def walkJars (root : String) : DirTree → List String
  | .mk files subdirs =>
    (files.filter (fun f => f.endsWith ".jar")).map (fun f => os_path_join root f)
      ++ walkJarsForest root subdirs
/-- Traversal of a list of subdirectories of `root`, in order. -/
def walkJarsForest (root : String) : DirForest → List String
  | .nil => []
  | .cons name tree rest =>
    walkJars (os_path_join root name) tree ++ walkJarsForest root rest
end

/-- The filesystem state `get_classpath` reads: whether LIB_DIR exists,
and its directory tree when it does. -/
structure ClasspathEnv where
  libDirExists : Bool
  libTree : DirTree

/-- The jar list built by `get_classpath`: the main jar, then (when
LIB_DIR exists) every `.jar` file found by the recursive walk. -/
def classpathJars (cfg : Config) (env : ClasspathEnv) : List String :=
  if env.libDirExists then cfg.jarPath :: walkJars cfg.libDir env.libTree
  else [cfg.jarPath]

/-- Function `get_classpath` from server.py: the jar list joined with a colon,
recomputed from the filesystem state on every call. -/
def get_classpath (cfg : Config) (env : ClasspathEnv) : String :=
  String.intercalate ":" (classpathJars cfg env)

/-- An HTTP response: status code and JSON body. -/
structure Response where
  status : Nat
  body : Json

/-- The shorthand 400/404/500-style body built by `jsonify` with a
single error message. -/
def errBody (msg : String) : Json :=
  .obj [("error", .str msg)]

/-- Handler `health` from server.py: always 200; status string and
`jar_exists` flag derived from whether the jar path exists. The `fs`
argument is the `os.path.exists` oracle for the filesystem state at
call time; the handler is a pure function of it. -/
def health (cfg : Config) (fs : String → Bool) : Response :=
  let jar_exists := fs cfg.jarPath
  { status := 200
    body := .obj [
      ("status", .str (if jar_exists then "healthy" else "degraded")),
      ("jar_exists", .bool jar_exists),
      ("jar_path", .str cfg.jarPath)] }

/-- The outcome of `subprocess.run(cmd, ..., timeout=60)`: either the
process completed with an exit code and captured stdout/stderr, or the
60-second timeout expired (raising `subprocess.TimeoutExpired`). -/
inductive ProcOutcome where
  | completed (returncode : Int) (stdout stderr : String)
  | timedOut

/-- An exception escaping the body of the `try` block: the
`subprocess.TimeoutExpired` caught as 504, or any other exception
(caught as a generic 500 carrying the message). -/
inductive Exc where
  | timeout
  | error (msg : String)

/-- The command list built by both handlers (java, classpath, main
class, the input PDF path, and `-d` with the working directory plus a
trailing slash as the JSON output prefix). It is passed to
`subprocess.run`; its content does not influence the modelled outcome
but is kept for fidelity. -/
def extractCmd (classpath pdfPath workDir : String) : List String :=
  ["java", "-cp", classpath,
   "org.allenai.pdffigures2.FigureExtractorBatchCli",
   pdfPath,
   "-d", os_path_join workDir ""]

/-- The shared tail of both handlers inside the `try` block, from
`subprocess.run` onwards: non-zero exit yields the 500 with truncated
stderr; otherwise the handler checks for the output JSON file at
`figuresJsonPath`, returns the empty figure list when it is absent, and
otherwise reads, parses and normalizes it. `fs` is the
`os.path.exists` oracle and `readJson` the combined result of `open`
plus `json.load` (an error models the exception either raises). -/
def runTool (proc : ProcOutcome) (fs : String → Bool)
    (readJson : String → Except String Json)
    (figuresJsonPath : String) : Except Exc Response :=
  match proc with
  | .timedOut => .error .timeout
  | .completed returncode _ stderr =>
    if returncode ≠ 0 then
      .ok { status := 500
            body := .obj [
              ("error", .str "pdffigures2 extraction failed"),
              ("stderr", .str (stderr.take 1000))] }
    else if fs figuresJsonPath = false then
      .ok { status := 200, body := .obj [("figures", .arr [])] }
    else
      match readJson figuresJsonPath with
      | .error msg => .error (.error msg)
      | .ok raw =>
        match raw with
        | .arr figs =>
          match transform_figures figs with
          | some figures =>
            .ok { status := 200, body := .obj [("figures", .arr figures)] }
          | none => .error (.error "AttributeError in transform_figures")
        | _ => .error (.error "TypeError in transform_figures")

/-- Conversion of the `try` block result into the response, following
the `except` clauses: `subprocess.TimeoutExpired` becomes 504, any
other exception becomes a generic 500 with the message. -/
def handleExc : Except Exc Response → Response
  | .ok r => r
  | .error .timeout => { status := 504, body := errBody "Processing timeout" }
  | .error (.error msg) => { status := 500, body := errBody msg }

/-- The result of one request: the response, whether the per-request
working directory was created, whether cleanup (`shutil.rmtree` in the
`finally` block) was invoked, and whether the directory was actually
removed (rmtree succeeded). -/
structure Outcome where
  response : Response
  workDirCreated : Bool
  rmtreeCalled : Bool
  workDirRemoved : Bool

/-- Environment of one `POST /extract` request: everything the handler
observes from the outside world. `saveError` is `some msg` when
`pdf_file.save` raises; `fs` is the `os.path.exists` oracle;
`readJson` the `open` plus `json.load` result per path; `rmtreeRaises`
whether `shutil.rmtree(work_dir)` raises in the `finally` block. -/
structure ExtractEnv where
  hasPdfField : Bool
  filename : String
  requestId : String
  saveError : Option String
  cp : ClasspathEnv
  proc : ProcOutcome
  fs : String → Bool
  readJson : String → Except String Json
  rmtreeRaises : Bool

/-- Handler `extract_figures` (`POST /extract`) from server.py:
validate the multipart field and filename, create the working
directory, save the upload as `input.pdf`, run the tool, look for
`input.json`, normalize, and clean up in `finally` on every path. -/
def extract_figures (cfg : Config) (env : ExtractEnv) : Outcome :=
  if env.hasPdfField = false then
    { response := { status := 400, body := errBody "No PDF file provided" }
      workDirCreated := false, rmtreeCalled := false, workDirRemoved := false }
  else if env.filename = "" then
    { response := { status := 400, body := errBody "Empty filename" }
      workDirCreated := false, rmtreeCalled := false, workDirRemoved := false }
  else
    let work_dir := os_path_join cfg.dataDir env.requestId
    let pdf_path := os_path_join work_dir "input.pdf"
    let _cmd := extractCmd (get_classpath cfg env.cp) pdf_path work_dir
    let tryResult : Except Exc Response :=
      match env.saveError with
      | some msg => .error (.error msg)
      | none =>
        runTool env.proc env.fs env.readJson (os_path_join work_dir "input.json")
    { response := handleExc tryResult
      workDirCreated := true
      rmtreeCalled := true
      workDirRemoved := !env.rmtreeRaises }

/-- Environment of one `POST /extract-from-path` request. `body` is the
parsed JSON body as a string-to-string dict; `none` covers a missing,
null, empty or non-dict body (every case the falsy-or-missing-key test
in the code sends to the 400 branch). -/
structure PathEnv where
  body : Option (List (String × String))
  requestId : String
  cp : ClasspathEnv
  proc : ProcOutcome
  fs : String → Bool
  readJson : String → Except String Json
  rmtreeRaises : Bool

/-- Handler `extract_figures_from_path` (`POST /extract-from-path`)
from server.py: validate the body and the existence of the given path,
create the working directory, run the tool on the path in place, look
for the output JSON named after the stem of the path filename,
normalize, and clean up in `finally` on every path. -/
def extract_figures_from_path (cfg : Config) (env : PathEnv) : Outcome :=
  match env.body with
  | none =>
    { response := { status := 400, body := errBody "No pdf_path provided" }
      workDirCreated := false, rmtreeCalled := false, workDirRemoved := false }
  | some data =>
    match data.find? (fun p => p.1 == "pdf_path") with
    | none =>
      { response := { status := 400, body := errBody "No pdf_path provided" }
        workDirCreated := false, rmtreeCalled := false, workDirRemoved := false }
    | some kv =>
      let pdf_path := kv.2
      if env.fs pdf_path = false then
        { response := { status := 404
                        body := errBody ("PDF not found: " ++ pdf_path) }
          workDirCreated := false, rmtreeCalled := false, workDirRemoved := false }
      else
        let work_dir := os_path_join cfg.dataDir env.requestId
        let pdf_basename := os_splitext_root (os_basename pdf_path)
        let _cmd := extractCmd (get_classpath cfg env.cp) pdf_path work_dir
        let tryResult : Except Exc Response :=
          runTool env.proc env.fs env.readJson
            (os_path_join work_dir (pdf_basename ++ ".json"))
        { response := handleExc tryResult
          workDirCreated := true
          rmtreeCalled := true
          workDirRemoved := !env.rmtreeRaises }

/-- The normalized record built by the loop body of `transform_figures`
for a raw record `fig` whose (possibly defaulted) region boundary dict
is `region`. -/
def normalizedFigure (fig region : List (String × Json)) : Json :=
  .obj [
    ("name", dget fig "name" (.str "")),
    ("figType", dget fig "figType" (.str "Figure")),
    ("page", dget fig "page" (.num 0)),
    ("caption", dget fig "caption" (.str "")),
    ("regionBoundary", .obj [
      ("x1", dget region "x1" (.num 0)),
      ("y1", dget region "y1" (.num 0)),
      ("x2", dget region "x2" (.num 0)),
      ("y2", dget region "y2" (.num 0))]),
    ("imageBoundary", dget fig "imageBoundary" .null)]

/-- Example configuration matching the environment defaults in
server.py. -/
def exCfg : Config :=
  { jarPath := "/app/pdffigures2.jar", libDir := "/app/lib", dataDir := "/data" }

/-- Example classpath filesystem state: no dependency directory. -/
def exCp : ClasspathEnv := { libDirExists := false, libTree := .mk [] .nil }

/-- Upload request whose subprocess exits with code 2. -/
def envFailU : ExtractEnv :=
  { hasPdfField := true, filename := "a.pdf", requestId := "r1",
    saveError := none, cp := exCp, proc := .completed 2 "out" "boom",
    fs := fun _ => false, readJson := fun _ => .error "e",
    rmtreeRaises := false }

/-- Path request whose subprocess exits with code 3. -/
def envFailP : PathEnv :=
  { body := some [("pdf_path", "/mnt/p.pdf")], requestId := "r1",
    cp := exCp, proc := .completed 3 "out" "bad",
    fs := fun s => s == "/mnt/p.pdf", readJson := fun _ => .error "e",
    rmtreeRaises := false }

/-- Upload request whose subprocess hits the 60-second timeout. -/
def envTimeU : ExtractEnv :=
  { hasPdfField := true, filename := "a.pdf", requestId := "r1",
    saveError := none, cp := exCp, proc := .timedOut,
    fs := fun _ => false, readJson := fun _ => .error "e",
    rmtreeRaises := false }

/-- Path request whose subprocess hits the 60-second timeout. -/
def envTimeP : PathEnv :=
  { body := some [("pdf_path", "/mnt/p.pdf")], requestId := "r1",
    cp := exCp, proc := .timedOut,
    fs := fun s => s == "/mnt/p.pdf", readJson := fun _ => .error "e",
    rmtreeRaises := false }

/-- Upload request with a zero-exit run and no output file on disk. -/
def envOkU : ExtractEnv :=
  { hasPdfField := true, filename := "a.pdf", requestId := "r1",
    saveError := none, cp := exCp, proc := .completed 0 "" "",
    fs := fun _ => false, readJson := fun _ => .error "e",
    rmtreeRaises := false }

/-- Path request with a zero-exit run; the input PDF exists but the
output JSON does not. -/
def envOkP : PathEnv :=
  { body := some [("pdf_path", "/mnt/p.pdf")], requestId := "r1",
    cp := exCp, proc := .completed 0 "" "",
    fs := fun s => s == "/mnt/p.pdf", readJson := fun _ => .error "e",
    rmtreeRaises := false }

/-- Upload request with no pdf multipart field. -/
def envNoFieldU : ExtractEnv :=
  { hasPdfField := false, filename := "a.pdf", requestId := "r1",
    saveError := none, cp := exCp, proc := .completed 0 "" "",
    fs := fun _ => false, readJson := fun _ => .error "e",
    rmtreeRaises := false }

/-- Upload request whose pdf field has an empty filename. -/
def envEmptyNameU : ExtractEnv :=
  { hasPdfField := true, filename := "", requestId := "r1",
    saveError := none, cp := exCp, proc := .completed 0 "" "",
    fs := fun _ => false, readJson := fun _ => .error "e",
    rmtreeRaises := false }

/-- Path request whose JSON body lacks the pdf_path key. -/
def envNoKeyP : PathEnv :=
  { body := some [("other", "x")], requestId := "r1",
    cp := exCp, proc := .completed 0 "" "",
    fs := fun _ => false, readJson := fun _ => .error "e",
    rmtreeRaises := false }

/-- Path request whose pdf_path does not exist on disk. -/
def envMissingP : PathEnv :=
  { body := some [("pdf_path", "/mnt/nope.pdf")], requestId := "r1",
    cp := exCp, proc := .completed 0 "" "",
    fs := fun _ => false, readJson := fun _ => .error "e",
    rmtreeRaises := false }

lemma transformFig_of_region (fig region : List (String × Json))
    (h : dget fig "regionBoundary" (Json.obj []) = Json.obj region) :
    transformFig fig = some (normalizedFigure fig region) := by
  simp only [transformFig, normalizedFigure, h]

lemma transformFig_some (fig : List (String × Json)) (o : Json)
    (h : transformFig fig = some o) :
    ∃ region, dget fig "regionBoundary" (Json.obj []) = Json.obj region ∧
      o = normalizedFigure fig region := by
  simp only [transformFig] at h
  split at h
  case _ region heq => exact ⟨region, heq, (Option.some.inj h).symm⟩
  case _ => exact absurd h (by simp)

lemma normalizedFigure_fix (fig region : List (String × Json)) :
    ∃ d, normalizedFigure fig region = Json.obj d ∧
      transformFig d = some (normalizedFigure fig region) :=
  ⟨_, rfl, rfl⟩

/-- Pointwise characterization of a successful `transform_figures` run:
each input element is a dict, its region boundary value (defaulted to
the empty dict) is a dict, and the corresponding output element is the
normalized record. -/
lemma transform_figures_forall (raw out : List Json)
    (h : transform_figures raw = some out) :
    List.Forall₂ (fun j o => ∃ fig region, j = Json.obj fig ∧
      dget fig "regionBoundary" (Json.obj []) = Json.obj region ∧
      o = normalizedFigure fig region) raw out := by
  induction raw generalizing out with
  | nil =>
    simp only [transform_figures, Option.some.injEq] at h
    rw [← h]
    exact .nil
  | cons j rest ih =>
    cases j with
    | obj fig =>
      simp only [transform_figures] at h
      cases hF : transformFig fig with
      | none => rw [hF] at h; exact absurd h (by simp)
      | some o1 =>
        cases hR : transform_figures rest with
        | none => rw [hF, hR] at h; exact absurd h (by simp)
        | some outs =>
          rw [hF, hR] at h
          obtain ⟨region, hreg, ho⟩ := transformFig_some fig o1 hF
          rw [← Option.some.inj h]
          exact .cons ⟨fig, region, rfl, hreg, ho⟩ (ih outs hR)
    | null => simp only [transform_figures] at h; exact absurd h (by simp)
    | bool b => simp only [transform_figures] at h; exact absurd h (by simp)
    | num n => simp only [transform_figures] at h; exact absurd h (by simp)
    | str s => simp only [transform_figures] at h; exact absurd h (by simp)
    | arr xs => simp only [transform_figures] at h; exact absurd h (by simp)

/-- C2: for every list of raw figure records on which normalization
succeeds, `transform_figures` returns a list of the same length and
order in which every entry is the fully default-filled normalized
record: name defaults to the empty string, figType to "Figure", page to
0, caption to the empty string, all four regionBoundary coordinates to
0 when absent, and imageBoundary to null when absent (see
`normalizedFigure`). The mapping is a pure function of its input. -/
theorem transform_normalizes (raw out : List Json)
    (h : transform_figures raw = some out) :
    out.length = raw.length ∧
    List.Forall₂ (fun j o => ∃ fig region, j = Json.obj fig ∧
      dget fig "regionBoundary" (Json.obj []) = Json.obj region ∧
      o = normalizedFigure fig region) raw out :=
  ⟨(transform_figures_forall raw out h).length_eq.symm,
   transform_figures_forall raw out h⟩

/-- Witness for C2 at the one-element list holding an empty record. -/
theorem transform_normalizes_witness :
    transform_figures [Json.obj []] = some [normalizedFigure [] []] ∧
    (([normalizedFigure [] []] : List Json).length
        = ([Json.obj []] : List Json).length ∧
     List.Forall₂ (fun j o => ∃ fig region, j = Json.obj fig ∧
       dget fig "regionBoundary" (Json.obj []) = Json.obj region ∧
       o = normalizedFigure fig region) [Json.obj []] [normalizedFigure [] []]) :=
  ⟨rfl, transform_normalizes [Json.obj []] [normalizedFigure [] []] rfl⟩

/-- C9: normalization is idempotent; applying `transform_figures` to
its own (successful) output returns that output unchanged. -/
theorem transform_idempotent (raw out : List Json)
    (h : transform_figures raw = some out) :
    transform_figures out = some out := by
  induction raw generalizing out with
  | nil =>
    simp only [transform_figures, Option.some.injEq] at h
    rw [← h]
    rfl
  | cons j rest ih =>
    cases j with
    | obj fig =>
      simp only [transform_figures] at h
      cases hF : transformFig fig with
      | none => rw [hF] at h; exact absurd h (by simp)
      | some o1 =>
        cases hR : transform_figures rest with
        | none => rw [hF, hR] at h; exact absurd h (by simp)
        | some outs =>
          rw [hF, hR] at h
          obtain ⟨region, _, ho⟩ := transformFig_some fig o1 hF
          obtain ⟨d, hd, hfd⟩ := normalizedFigure_fix fig region
          rw [← Option.some.inj h, ho, hd]
          have hfd' : transformFig d = some (Json.obj d) := by
            rw [hfd, hd]
          simp only [transform_figures, hfd', ih outs hR]
    | null => simp only [transform_figures] at h; exact absurd h (by simp)
    | bool b => simp only [transform_figures] at h; exact absurd h (by simp)
    | num n => simp only [transform_figures] at h; exact absurd h (by simp)
    | str s => simp only [transform_figures] at h; exact absurd h (by simp)
    | arr xs => simp only [transform_figures] at h; exact absurd h (by simp)

/-- Witness for C9 at the one-element list holding an empty record. -/
theorem transform_idempotent_witness :
    transform_figures [Json.obj []] = some [normalizedFigure [] []] ∧
    transform_figures [normalizedFigure [] []] = some [normalizedFigure [] []] :=
  ⟨rfl, transform_idempotent [Json.obj []] [normalizedFigure [] []] rfl⟩

/-- C10: the imageBoundary of every normalized entry is the raw record
imageBoundary value passed through verbatim, null when absent, with no
coordinate default-filling (a partial or non-rectangle value appears
unchanged). -/
theorem transform_imageBoundary_verbatim (raw out : List Json)
    (h : transform_figures raw = some out) :
    List.Forall₂ (fun j o => ∀ fig, j = Json.obj fig →
      jget o "imageBoundary" = some (dget fig "imageBoundary" Json.null))
      raw out := by
  refine (transform_figures_forall raw out h).imp ?_
  intro j o hjo fig hj
  obtain ⟨fig0, region, hj0, _, ho⟩ := hjo
  have hf : fig = fig0 := by
    rw [hj0] at hj
    exact (Json.obj.inj hj).symm
  rw [hf, ho]
  rfl

/-- Witness for C10 at a record whose imageBoundary is the non-rectangle
value 7. -/
theorem transform_imageBoundary_verbatim_witness :
    transform_figures [Json.obj [("imageBoundary", Json.num 7)]]
        = some [normalizedFigure [("imageBoundary", Json.num 7)] []] ∧
    List.Forall₂ (fun j o => ∀ fig, j = Json.obj fig →
      jget o "imageBoundary" = some (dget fig "imageBoundary" Json.null))
      [Json.obj [("imageBoundary", Json.num 7)]]
      [normalizedFigure [("imageBoundary", Json.num 7)] []] :=
  ⟨rfl, transform_imageBoundary_verbatim
    [Json.obj [("imageBoundary", Json.num 7)]]
    [normalizedFigure [("imageBoundary", Json.num 7)] []] rfl⟩

/-- C7: the health endpoint always returns 200, its status field is
"healthy" exactly when the configured jar path exists and "degraded"
otherwise, jar_exists is that boolean, jar_path echoes the configured
path, and the handler is a pure function of the filesystem state (no
side effects). -/
theorem health_contract (cfg : Config) (fs : String → Bool) :
    (health cfg fs).status = 200 ∧
    jget (health cfg fs).body "status"
      = some (.str (if fs cfg.jarPath then "healthy" else "degraded")) ∧
    jget (health cfg fs).body "jar_exists" = some (.bool (fs cfg.jarPath)) ∧
    jget (health cfg fs).body "jar_path" = some (.str cfg.jarPath) :=
  ⟨rfl, rfl, rfl, rfl⟩

/-- C8: the classpath is the primary jar first, then exactly the jars
found by the recursive walk of the dependency directory in traversal
order; when the dependency directory does not exist the list is just
the primary jar; the joined string is the colon join of that list. The
function is deterministic in the filesystem state by construction. -/
theorem classpath_contract (cfg : Config) (env : ClasspathEnv) :
    (classpathJars cfg env).head? = some cfg.jarPath ∧
    classpathJars cfg { env with libDirExists := true }
      = cfg.jarPath :: walkJars cfg.libDir env.libTree ∧
    classpathJars cfg { env with libDirExists := false } = [cfg.jarPath] ∧
    get_classpath cfg env = String.intercalate ":" (classpathJars cfg env) := by
  obtain ⟨b, t⟩ := env
  cases b <;> exact ⟨rfl, rfl, rfl, rfl⟩

/-- Flag bookkeeping of the upload handler: cleanup is invoked exactly
when the working directory was created, removal succeeds exactly when
rmtree does not raise, and the response never depends on whether rmtree
raises. -/
lemma extract_figures_flags (cfg : Config) (env : ExtractEnv) :
    (extract_figures cfg env).rmtreeCalled = (extract_figures cfg env).workDirCreated ∧
    (extract_figures cfg env).workDirRemoved
      = ((extract_figures cfg env).workDirCreated && !env.rmtreeRaises) ∧
    ∀ b, (extract_figures cfg { env with rmtreeRaises := b }).response
      = (extract_figures cfg env).response := by
  obtain ⟨hpf, fn, rid, se, cp, proc, fs, rj, rr⟩ := env
  by_cases h1 : hpf = false
  · simp [extract_figures, h1]
  · by_cases h2 : fn = ""
    · simp [extract_figures, h1, h2]
    · simp [extract_figures, h1, h2]

/-- Flag bookkeeping of the path handler, as for the upload handler. -/
lemma extract_path_flags (cfg : Config) (env : PathEnv) :
    (extract_figures_from_path cfg env).rmtreeCalled
      = (extract_figures_from_path cfg env).workDirCreated ∧
    (extract_figures_from_path cfg env).workDirRemoved
      = ((extract_figures_from_path cfg env).workDirCreated && !env.rmtreeRaises) ∧
    ∀ b, (extract_figures_from_path cfg { env with rmtreeRaises := b }).response
      = (extract_figures_from_path cfg env).response := by
  obtain ⟨bd, rid, cp, proc, fs, rj, rr⟩ := env
  cases bd with
  | none => simp [extract_figures_from_path]
  | some data =>
    cases hf : data.find? (fun p => p.1 == "pdf_path") with
    | none => simp [extract_figures_from_path, hf]
    | some kv =>
      by_cases hx : fs kv.2 = false
      · simp [extract_figures_from_path, hf, hx]
      · simp [extract_figures_from_path, hf, hx]

/-- C1: on both endpoints and every outcome (success, tool failure,
timeout, unexpected exception), whenever the working directory was
created the finally-block cleanup is invoked before returning; the
directory is removed whenever rmtree does not raise; and an error
raised by the removal itself never changes the response. -/
theorem cleanup_always (cfg : Config) (envU : ExtractEnv) (envP : PathEnv)
    (b c : Bool) :
    ((extract_figures cfg envU).rmtreeCalled
        = (extract_figures cfg envU).workDirCreated ∧
     (extract_figures cfg envU).workDirRemoved
        = ((extract_figures cfg envU).workDirCreated && !envU.rmtreeRaises) ∧
     (extract_figures cfg { envU with rmtreeRaises := b }).response
        = (extract_figures cfg { envU with rmtreeRaises := c }).response) ∧
    ((extract_figures_from_path cfg envP).rmtreeCalled
        = (extract_figures_from_path cfg envP).workDirCreated ∧
     (extract_figures_from_path cfg envP).workDirRemoved
        = ((extract_figures_from_path cfg envP).workDirCreated && !envP.rmtreeRaises) ∧
     (extract_figures_from_path cfg { envP with rmtreeRaises := b }).response
        = (extract_figures_from_path cfg { envP with rmtreeRaises := c }).response) := by
  obtain ⟨u1, u2, u3⟩ := extract_figures_flags cfg envU
  obtain ⟨p1, p2, p3⟩ := extract_path_flags cfg envP
  exact ⟨⟨u1, u2, (u3 b).trans (u3 c).symm⟩, ⟨p1, p2, (p3 b).trans (p3 c).symm⟩⟩

/-- C3: on either endpoint, a non-zero exit of the external process
yields a 500 whose JSON body has an error field and a stderr field
holding the first 1000 characters of the captured error stream. -/
theorem tool_failure_500 (cfg : Config) (envU : ExtractEnv) (envP : PathEnv)
    (rc : Int) (soutU seU : String) (rcP : Int) (soutP seP : String)
    (d : List (String × String)) (kv : String × String)
    (h1 : envU.hasPdfField = true) (h2 : envU.filename ≠ "")
    (h3 : envU.saveError = none)
    (h4 : envU.proc = .completed rc soutU seU) (h5 : rc ≠ 0)
    (p1 : envP.body = some d)
    (p2 : d.find? (fun p => p.1 == "pdf_path") = some kv)
    (p3 : envP.fs kv.2 = true)
    (p4 : envP.proc = .completed rcP soutP seP) (p5 : rcP ≠ 0) :
    ((extract_figures cfg envU).response.status = 500 ∧
     jget (extract_figures cfg envU).response.body "error"
        = some (.str "pdffigures2 extraction failed") ∧
     jget (extract_figures cfg envU).response.body "stderr"
        = some (.str (seU.take 1000))) ∧
    ((extract_figures_from_path cfg envP).response.status = 500 ∧
     jget (extract_figures_from_path cfg envP).response.body "error"
        = some (.str "pdffigures2 extraction failed") ∧
     jget (extract_figures_from_path cfg envP).response.body "stderr"
        = some (.str (seP.take 1000))) := by
  have hU : (extract_figures cfg envU).response
      = { status := 500
          body := Json.obj [("error", Json.str "pdffigures2 extraction failed"),
                            ("stderr", Json.str (seU.take 1000))] } := by
    simp [extract_figures, runTool, handleExc, h1, h2, h3, h4, h5]
  have hP : (extract_figures_from_path cfg envP).response
      = { status := 500
          body := Json.obj [("error", Json.str "pdffigures2 extraction failed"),
                            ("stderr", Json.str (seP.take 1000))] } := by
    simp [extract_figures_from_path, runTool, handleExc, p1, p2, p3, p4, p5]
  exact ⟨⟨by rw [hU], by rw [hU]; rfl, by rw [hU]; rfl⟩,
    ⟨by rw [hP], by rw [hP]; rfl, by rw [hP]; rfl⟩⟩

/-- Witness for C3 with exit codes 2 and 3 and stderr "boom" / "bad". -/
theorem tool_failure_500_witness :
    ((extract_figures exCfg envFailU).response.status = 500 ∧
     jget (extract_figures exCfg envFailU).response.body "error"
        = some (.str "pdffigures2 extraction failed") ∧
     jget (extract_figures exCfg envFailU).response.body "stderr"
        = some (.str ("boom".take 1000))) ∧
    ((extract_figures_from_path exCfg envFailP).response.status = 500 ∧
     jget (extract_figures_from_path exCfg envFailP).response.body "error"
        = some (.str "pdffigures2 extraction failed") ∧
     jget (extract_figures_from_path exCfg envFailP).response.body "stderr"
        = some (.str ("bad".take 1000))) :=
  tool_failure_500 exCfg envFailU envFailP 2 "out" "boom" 3 "out" "bad"
    [("pdf_path", "/mnt/p.pdf")] ("pdf_path", "/mnt/p.pdf")
    rfl (by decide) rfl rfl (by decide) rfl rfl (by decide) rfl (by decide)

/-- C4: on either endpoint, when the external process exceeds the
60-second timeout the response is a 504 with a JSON error body, a
status distinct from the 500 used for tool failure and unexpected
errors. -/
theorem timeout_504 (cfg : Config) (envU : ExtractEnv) (envP : PathEnv)
    (d : List (String × String)) (kv : String × String)
    (h1 : envU.hasPdfField = true) (h2 : envU.filename ≠ "")
    (h3 : envU.saveError = none) (h4 : envU.proc = .timedOut)
    (p1 : envP.body = some d)
    (p2 : d.find? (fun p => p.1 == "pdf_path") = some kv)
    (p3 : envP.fs kv.2 = true) (p4 : envP.proc = .timedOut) :
    ((extract_figures cfg envU).response.status = 504 ∧
     (extract_figures cfg envU).response.status ≠ 500 ∧
     jget (extract_figures cfg envU).response.body "error"
        = some (.str "Processing timeout")) ∧
    ((extract_figures_from_path cfg envP).response.status = 504 ∧
     (extract_figures_from_path cfg envP).response.status ≠ 500 ∧
     jget (extract_figures_from_path cfg envP).response.body "error"
        = some (.str "Processing timeout")) := by
  have hU : (extract_figures cfg envU).response
      = { status := 504, body := errBody "Processing timeout" } := by
    simp [extract_figures, runTool, handleExc, h1, h2, h3, h4]
  have hP : (extract_figures_from_path cfg envP).response
      = { status := 504, body := errBody "Processing timeout" } := by
    simp [extract_figures_from_path, runTool, handleExc, p1, p2, p3, p4]
  exact ⟨⟨by rw [hU], by rw [hU]; decide, by rw [hU]; rfl⟩,
    ⟨by rw [hP], by rw [hP]; decide, by rw [hP]; rfl⟩⟩

/-- Witness for C4 with both subprocesses timing out. -/
theorem timeout_504_witness :
    ((extract_figures exCfg envTimeU).response.status = 504 ∧
     (extract_figures exCfg envTimeU).response.status ≠ 500 ∧
     jget (extract_figures exCfg envTimeU).response.body "error"
        = some (.str "Processing timeout")) ∧
    ((extract_figures_from_path exCfg envTimeP).response.status = 504 ∧
     (extract_figures_from_path exCfg envTimeP).response.status ≠ 500 ∧
     jget (extract_figures_from_path exCfg envTimeP).response.body "error"
        = some (.str "Processing timeout")) :=
  timeout_504 exCfg envTimeU envTimeP
    [("pdf_path", "/mnt/p.pdf")] ("pdf_path", "/mnt/p.pdf")
    rfl (by decide) rfl rfl rfl rfl (by decide) rfl

/-- C5: after a zero-exit run, each handler looks for the output file
at the working directory joined with the input basename stem plus
".json" (the fixed stem of input.pdf for the upload endpoint, the stem
of the caller-supplied path filename for the path endpoint); when that
file does not exist the response is a 200 with an empty figure list. -/
theorem missing_output_empty (cfg : Config) (envU : ExtractEnv) (envP : PathEnv)
    (soutU seU soutP seP : String)
    (d : List (String × String)) (kv : String × String)
    (h1 : envU.hasPdfField = true) (h2 : envU.filename ≠ "")
    (h3 : envU.saveError = none)
    (h4 : envU.proc = .completed 0 soutU seU)
    (h6 : envU.fs (os_path_join (os_path_join cfg.dataDir envU.requestId)
            (os_splitext_root (os_basename "input.pdf") ++ ".json")) = false)
    (p1 : envP.body = some d)
    (p2 : d.find? (fun p => p.1 == "pdf_path") = some kv)
    (p3 : envP.fs kv.2 = true)
    (p4 : envP.proc = .completed 0 soutP seP)
    (p6 : envP.fs (os_path_join (os_path_join cfg.dataDir envP.requestId)
            (os_splitext_root (os_basename kv.2) ++ ".json")) = false) :
    (extract_figures cfg envU).response
        = { status := 200, body := Json.obj [("figures", Json.arr [])] } ∧
    (extract_figures_from_path cfg envP).response
        = { status := 200, body := Json.obj [("figures", Json.arr [])] } := by
  have hs : os_splitext_root (os_basename "input.pdf") ++ ".json" = "input.json" := by
    decide
  rw [hs] at h6
  constructor
  · simp [extract_figures, runTool, handleExc, h1, h2, h3, h4, h6]
  · simp [extract_figures_from_path, runTool, handleExc, p1, p2, p3, p4, p6]

/-- Witness for C5: zero-exit runs with no output file on disk. -/
theorem missing_output_empty_witness :
    (extract_figures exCfg envOkU).response
        = { status := 200, body := Json.obj [("figures", Json.arr [])] } ∧
    (extract_figures_from_path exCfg envOkP).response
        = { status := 200, body := Json.obj [("figures", Json.arr [])] } :=
  missing_output_empty exCfg envOkU envOkP "" "" "" ""
    [("pdf_path", "/mnt/p.pdf")] ("pdf_path", "/mnt/p.pdf")
    rfl (by decide) rfl rfl rfl rfl rfl (by decide) rfl (by decide)

/-- C6: input validation happens before any working directory is
created: a missing pdf multipart field gives a 400 with an error field,
an empty filename gives a 400, a body without the pdf_path key gives a
400, and a pdf_path that does not exist gives a 404; in all four cases
no working directory is created. -/
theorem validation_contract (cfg : Config)
    (e1 e2 : ExtractEnv) (e3 e4 : PathEnv)
    (d3 d4 : List (String × String)) (kv : String × String)
    (h1 : e1.hasPdfField = false)
    (h2a : e2.hasPdfField = true) (h2b : e2.filename = "")
    (h3a : e3.body = some d3)
    (h3b : d3.find? (fun p => p.1 == "pdf_path") = none)
    (h4a : e4.body = some d4)
    (h4b : d4.find? (fun p => p.1 == "pdf_path") = some kv)
    (h4c : e4.fs kv.2 = false) :
    ((extract_figures cfg e1).response.status = 400 ∧
     jget (extract_figures cfg e1).response.body "error"
        = some (.str "No PDF file provided") ∧
     (extract_figures cfg e1).workDirCreated = false) ∧
    ((extract_figures cfg e2).response.status = 400 ∧
     jget (extract_figures cfg e2).response.body "error"
        = some (.str "Empty filename") ∧
     (extract_figures cfg e2).workDirCreated = false) ∧
    ((extract_figures_from_path cfg e3).response.status = 400 ∧
     jget (extract_figures_from_path cfg e3).response.body "error"
        = some (.str "No pdf_path provided") ∧
     (extract_figures_from_path cfg e3).workDirCreated = false) ∧
    ((extract_figures_from_path cfg e4).response.status = 404 ∧
     jget (extract_figures_from_path cfg e4).response.body "error"
        = some (.str ("PDF not found: " ++ kv.2)) ∧
     (extract_figures_from_path cfg e4).workDirCreated = false) := by
  have g1 : extract_figures cfg e1
      = { response := { status := 400, body := errBody "No PDF file provided" }
          workDirCreated := false, rmtreeCalled := false, workDirRemoved := false } := by
    simp [extract_figures, h1]
  have g2 : extract_figures cfg e2
      = { response := { status := 400, body := errBody "Empty filename" }
          workDirCreated := false, rmtreeCalled := false, workDirRemoved := false } := by
    simp [extract_figures, h2a, h2b]
  have g3 : extract_figures_from_path cfg e3
      = { response := { status := 400, body := errBody "No pdf_path provided" }
          workDirCreated := false, rmtreeCalled := false, workDirRemoved := false } := by
    simp [extract_figures_from_path, h3a, h3b]
  have g4 : extract_figures_from_path cfg e4
      = { response := { status := 404
                        body := errBody ("PDF not found: " ++ kv.2) }
          workDirCreated := false, rmtreeCalled := false, workDirRemoved := false } := by
    simp [extract_figures_from_path, h4a, h4b, h4c]
  exact ⟨⟨by rw [g1], by rw [g1]; rfl, by rw [g1]⟩,
    ⟨by rw [g2], by rw [g2]; rfl, by rw [g2]⟩,
    ⟨by rw [g3], by rw [g3]; rfl, by rw [g3]⟩,
    ⟨by rw [g4], by rw [g4]; rfl, by rw [g4]⟩⟩

/-- Witness for C6 over the four invalid-input fixtures. -/
theorem validation_contract_witness :
    ((extract_figures exCfg envNoFieldU).response.status = 400 ∧
     jget (extract_figures exCfg envNoFieldU).response.body "error"
        = some (.str "No PDF file provided") ∧
     (extract_figures exCfg envNoFieldU).workDirCreated = false) ∧
    ((extract_figures exCfg envEmptyNameU).response.status = 400 ∧
     jget (extract_figures exCfg envEmptyNameU).response.body "error"
        = some (.str "Empty filename") ∧
     (extract_figures exCfg envEmptyNameU).workDirCreated = false) ∧
    ((extract_figures_from_path exCfg envNoKeyP).response.status = 400 ∧
     jget (extract_figures_from_path exCfg envNoKeyP).response.body "error"
        = some (.str "No pdf_path provided") ∧
     (extract_figures_from_path exCfg envNoKeyP).workDirCreated = false) ∧
    ((extract_figures_from_path exCfg envMissingP).response.status = 404 ∧
     jget (extract_figures_from_path exCfg envMissingP).response.body "error"
        = some (.str ("PDF not found: " ++ ("pdf_path", "/mnt/nope.pdf").2)) ∧
     (extract_figures_from_path exCfg envMissingP).workDirCreated = false) :=
  validation_contract exCfg envNoFieldU envEmptyNameU envNoKeyP envMissingP
    [("other", "x")] [("pdf_path", "/mnt/nope.pdf")] ("pdf_path", "/mnt/nope.pdf")
    rfl rfl rfl rfl rfl rfl rfl rfl
